import Mathlib

/- Verification of the ai-health-chatbot repository against its design
   specification.

   The repository splits into a React/TypeScript frontend (present under
   src/) and a Python training/serving core (described by
   backend/TRAINING_GUIDE.md, backend/README.md and the setup notes, but
   whose Python sources are not part of the snapshot).  The frontend
   helpers (src/config/api.ts, src/pages/FollowDoses.tsx,
   src/components/* chat components) are embedded directly from their
   TypeScript sources.  The hybrid symptom-decision engine (Corpus
   Loader, Feature Encoder, Classifier Trainer, Similarity Index
   Builder, Model Artifact Store, Decision Engine) is modelled from the
   specification, since its code is missing from the snapshot.
   Rationals stand in for the floating point numbers of the original. -/

/-- Modelled from the spec: an EmbeddingVector is a fixed-length numeric
vector (spec section 3); rationals stand in for floats. -/
abbrev Vec := List ℚ

/-- Dot product of two embedding vectors (componentwise product, summed;
extra components of the longer vector are ignored). -/
def dot (x y : Vec) : ℚ := (List.zipWith (fun a b => a * b) x y).sum

/-- Squared Euclidean norm of an embedding vector. -/
def nsq (x : Vec) : ℚ := dot x x


/-- Signed square: a strictly monotone rational function with
`ssq x = x * x` for nonnegative `x`.  Comparing `ssq (dot q v) / nsq v`
values orders entries exactly as their cosine similarity to `q` does,
while staying inside the rationals. -/
def ssq (x : ℚ) : ℚ := x * |x|


/-- Modelled from the spec: an entry of a nearest-neighbor index, keyed by a
symptom token or disease label (spec section 4.4). -/
structure IndexEntry where
  key : String
  vec : Vec
deriving DecidableEq

/-- Modelled from the spec: the similarity score used for ranking, a strictly
monotone rational transform of the cosine similarity of `q` and `v`
(the cosine itself is irrational in general).  Zero vectors score 0. -/
def simScore (q v : Vec) : ℚ :=
  if nsq v = 0 then 0 else ssq (dot q v) / nsq v


/-- Modelled from the spec: the ranking relation of a similarity query —
descending similarity score, ties broken by lexical order of the key
(spec section 4.4). -/
def Ranked (q : Vec) (a b : IndexEntry) : Prop :=
  simScore q b.vec < simScore q a.vec ∨
    (simScore q a.vec = simScore q b.vec ∧ a.key ≤ b.key)

instance (q : Vec) : DecidableRel (Ranked q) := fun a b => by
  unfold Ranked
  infer_instance

instance (q : Vec) : IsTotal IndexEntry (Ranked q) := by
  constructor
  intro a b
  rcases lt_trichotomy (simScore q a.vec) (simScore q b.vec) with h | h | h
  · exact Or.inr (Or.inl h)
  · rcases le_total a.key b.key with hk | hk
    · exact Or.inl (Or.inr ⟨h, hk⟩)
    · exact Or.inr (Or.inr ⟨h.symm, hk⟩)
  · exact Or.inl (Or.inl h)

instance (q : Vec) : IsTrans IndexEntry (Ranked q) := by
  constructor
  intro a b c hab hbc
  rcases hab with h1 | ⟨h1, k1⟩
  · rcases hbc with h2 | ⟨h2, _⟩
    · exact Or.inl (h2.trans h1)
    · exact Or.inl (h2 ▸ h1)
  · rcases hbc with h2 | ⟨h2, k2⟩
    · exact Or.inl (h1 ▸ h2)
    · exact Or.inr ⟨h1.trans h2, k1.trans k2⟩

/-- Modelled from the spec: a similarity-index query returns the `k` nearest
entries, ranked by descending similarity with lexical tie-break
(spec section 4.4). -/
def querySim (q : Vec) (idx : List IndexEntry) (k : Nat) : List IndexEntry :=
  (List.insertionSort (Ranked q) idx).take k

/-- Modelled from the spec: the fixed dimensionality of the feature encoder
(spec section 3; the concrete value is immaterial to the claims). -/
def embedDim : Nat := 8

/-- Modelled from the spec: the per-token embedding of the Feature Encoder
(spec section 4.2).  The real encoder is a pretrained sentence-embedding
model; it is modelled by a deterministic hash-like function of the token
text, which keeps the two properties the spec relies on: it is a pure
function of the token, and every token (also an unseen one) receives a
vector of dimension `embedDim`. -/
def tokenEmbed (t : String) : Vec :=
  (List.range embedDim).map (fun i =>
    (((t.toList.map Char.toNat).foldl (fun a c => (a * 31 + c + 7) % 1009)
      (i + 1) : Nat) : ℚ))

/-- Componentwise sum of two embedding vectors. -/
def vadd (x y : Vec) : Vec := List.zipWith (fun a b => a + b) x y

/-- Scalar multiple of an embedding vector. -/
def vsmul (c : ℚ) (x : Vec) : Vec := x.map (fun a => c * a)

/-- Modelled from the spec: the Feature Encoder (spec section 4.2) — a
symptom set is reduced to one vector by the fixed aggregation rule
elementwise mean of the per-token embeddings. -/
def encode (s : List String) : Vec :=
  vsmul (1 / (s.length : ℚ))
    (s.foldl (fun acc t => vadd acc (tokenEmbed t)) (List.replicate embedDim 0))

/-- Modelled from the spec: provenance tag of a Decision field — whether it
came from a trained model or a rule-based fallback (spec glossary). -/
inductive Provenance where
  | model
  | fallback
deriving DecidableEq

/-- Modelled from the spec: the knowledge-base collaborator contract
(spec section 6): rule-based disease, severity and emergency estimates
usable as fallback when a classifier artifact is absent. -/
structure KnowledgeBase where
  fallbackDisease : List String → String × ℚ
  fallbackSeverity : List String → ℚ
  fallbackEmergency : List String → Bool

/-- Modelled from the spec: the loaded-artifact snapshot of the Decision
Engine (spec sections 4.5 and 9): one optional slot per artifact kind.  A
loaded classifier is an arbitrary prediction function that may return
missing (`none`) or out-of-range output. -/
structure Artifacts where
  disease : Option (Vec → Option (String × ℚ))
  severity : Option (Vec → Option ℚ)
  emergency : Option (Vec → Option ℚ)
  symIndex : Option (List IndexEntry)
  disIndex : Option (List IndexEntry)

/-- Modelled from the spec: the Decision record (spec section 3), extended
with the provenance tags required by spec section 7. -/
structure Decision where
  predicted_disease : String
  disease_confidence : ℚ
  severity_score : ℤ
  emergency_flag : Bool
  disease_source : Provenance
  severity_source : Provenance
  emergency_source : Provenance
  similar_symptoms : List (String × ℚ)
  similar_diseases : List (String × ℚ)

/-- Modelled from the spec: severity is collapsed to an integer in 1..10 by
rounding and clamping (spec section 4.3). -/
def clampSeverity (q : ℚ) : ℤ := min 10 (max 1 (round q))

/-- Modelled from the spec: disease confidence is a float in 0..1
(spec section 3). -/
def clampConf (q : ℚ) : ℚ := min 1 (max 0 q)

/-- Modelled from the spec: the default similarity query size k
(spec section 4.4). -/
def defaultK : Nat := 5

/-- Modelled from the spec: the severity field of a Decision — predict with
the loaded classifier when present, otherwise substitute the
knowledge-base estimate; clamp either way (spec section 4.5). -/
def severityOutput (arts : Artifacts) (kb : KnowledgeBase)
    (symptoms : List String) (v : Vec) : ℤ × Provenance :=
  match arts.severity with
  | some m =>
    match m v with
    | some raw => (clampSeverity raw, Provenance.model)
    | none => (clampSeverity (kb.fallbackSeverity symptoms), Provenance.fallback)
  | none => (clampSeverity (kb.fallbackSeverity symptoms), Provenance.fallback)

/-- Modelled from the spec: the emergency field of a Decision — the
classifier probability is thresholded at the fixed cutoff 1/2 when the
artifact is loaded, otherwise the knowledge-base fallback estimate is
substituted (spec sections 4.3 and 4.5). -/
def emergencyOutput (arts : Artifacts) (kb : KnowledgeBase)
    (symptoms : List String) (v : Vec) : Bool × Provenance :=
  match arts.emergency with
  | some m =>
    match m v with
    | some p => (if (1 : ℚ) / 2 ≤ p then true else false, Provenance.model)
    | none => (kb.fallbackEmergency symptoms, Provenance.fallback)
  | none => (kb.fallbackEmergency symptoms, Provenance.fallback)

/-- Modelled from the spec: the disease field of a Decision, with the same
hybrid fallback contract (spec section 4.5). -/
def diseaseOutput (arts : Artifacts) (kb : KnowledgeBase)
    (symptoms : List String) (v : Vec) : String × ℚ × Provenance :=
  match arts.disease with
  | some m =>
    match m v with
    | some dc => (dc.1, clampConf dc.2, Provenance.model)
    | none => ((kb.fallbackDisease symptoms).1,
        clampConf (kb.fallbackDisease symptoms).2, Provenance.fallback)
  | none => ((kb.fallbackDisease symptoms).1,
      clampConf (kb.fallbackDisease symptoms).2, Provenance.fallback)

/-- Similar-cases context from an optional similarity index
(spec section 4.5 step c). -/
def indexContext (v : Vec) (idx : Option (List IndexEntry)) :
    List (String × ℚ) :=
  match idx with
  | none => []
  | some entries =>
    (querySim v entries defaultK).map (fun e => (e.key, simScore v e.vec))

/-- Modelled from the spec: the serving step of the Decision Engine
(spec section 4.5): an empty symptom set is rejected before encoding;
otherwise the set is encoded once, each loaded classifier predicts,
each missing classifier is substituted by the knowledge-base estimate,
both indices are queried for context, severity and emergency are
clamped/validated, and a Decision is assembled. -/
def decisionEngine (arts : Artifacts) (kb : KnowledgeBase)
    (symptoms : List String) : Option Decision :=
  if symptoms.isEmpty then none
  else
    let v := encode symptoms
    let sev := severityOutput arts kb symptoms v
    let em := emergencyOutput arts kb symptoms v
    let dis := diseaseOutput arts kb symptoms v
    some {
      predicted_disease := dis.1
      disease_confidence := dis.2.1
      severity_score := sev.1
      emergency_flag := em.1
      disease_source := dis.2.2
      severity_source := sev.2
      emergency_source := em.2
      similar_symptoms := indexContext v arts.symIndex
      similar_diseases := indexContext v arts.disIndex }

/-- Modelled from the spec: a flat TrainingRecord produced by the Corpus
Loader (spec section 3): a symptom set plus optional disease, severity and
emergency labels. -/
structure RawRecord where
  symptom_set : List String
  disease_label : Option String
  severity_label : Option ℤ
  emergency_label : Option Bool
deriving DecidableEq

/-- Modelled from the spec: the error taxonomy entry DataError — a target
training set is empty after loading (spec section 7). -/
inductive DataError where
  | emptyTargetSet
deriving DecidableEq

/-- Modelled from the spec: the disease training set — deduplicated records
that carry a nonempty symptom set and a disease label (spec section 4.1). -/
def diseaseExamples (corpus : List RawRecord) : List (List String × String) :=
  (corpus.filterMap (fun r =>
    if r.symptom_set.isEmpty then none
    else r.disease_label.map (fun d => (r.symptom_set, d)))).dedup

/-- Modelled from the spec: the severity training set (spec section 4.1). -/
def severityExamples (corpus : List RawRecord) : List (List String × ℤ) :=
  (corpus.filterMap (fun r =>
    if r.symptom_set.isEmpty then none
    else r.severity_label.map (fun d => (r.symptom_set, d)))).dedup

/-- Modelled from the spec: the emergency training set (spec section 4.1). -/
def emergencyExamples (corpus : List RawRecord) : List (List String × Bool) :=
  (corpus.filterMap (fun r =>
    if r.symptom_set.isEmpty then none
    else r.emergency_label.map (fun d => (r.symptom_set, d)))).dedup

/-- Modelled from the spec: training one target classifier fails with
DataError exactly when its training set is empty after loading
(spec sections 4.1 and 7). -/
def loadTarget {α : Type} (ex : List α) : Except DataError (List α) :=
  if ex.isEmpty then Except.error DataError.emptyTargetSet else Except.ok ex

/-- Modelled from the spec: the disease-classifier training pass. -/
def trainDisease (corpus : List RawRecord) :
    Except DataError (List (List String × String)) :=
  loadTarget (diseaseExamples corpus)

/-- Modelled from the spec: the severity-classifier training pass. -/
def trainSeverity (corpus : List RawRecord) :
    Except DataError (List (List String × ℤ)) :=
  loadTarget (severityExamples corpus)

/-- Modelled from the spec: the emergency-classifier training pass. -/
def trainEmergency (corpus : List RawRecord) :
    Except DataError (List (List String × Bool)) :=
  loadTarget (emergencyExamples corpus)

/-- Whether a training pass ended in DataError. -/
def isDataError {α : Type} : Except DataError α → Bool
  | Except.error _ => true
  | Except.ok _ => false

/-- Modelled from the spec: the Model Artifact Store (spec section 6): one
slot per artifact kind, each holding an optional serialized payload. -/
structure Store where
  disease : Option (List (List String × String))
  severity : Option (List (List String × ℤ))
  emergency : Option (List (List String × Bool))
  symIndex : Option (List IndexEntry)
  disIndex : Option (List IndexEntry)
deriving DecidableEq

/-- The distinct symptom tokens of a corpus. -/
def corpusSymptoms (corpus : List RawRecord) : List String :=
  ((corpus.map (fun r => r.symptom_set)).flatten).dedup

/-- The distinct disease labels of a corpus. -/
def corpusDiseases (corpus : List RawRecord) : List String :=
  (corpus.filterMap (fun r => r.disease_label)).dedup

/-- Modelled from the spec: the Similarity Index Builder (spec section 4.4) —
a flat nearest-neighbor structure over the embeddings of the given keys. -/
def buildIndex (keys : List String) : List IndexEntry :=
  keys.map (fun t => { key := t, vec := tokenEmbed t })

/-- Modelled from the spec: the training entry point rebuilds all five
artifact kinds from the current corpus; a classifier whose training pass
fails is simply omitted (spec sections 4.3 and 6). -/
def trainAll (corpus : List RawRecord) : Store :=
  { disease := (trainDisease corpus).toOption
    severity := (trainSeverity corpus).toOption
    emergency := (trainEmergency corpus).toOption
    symIndex := some (buildIndex (corpusSymptoms corpus))
    disIndex := some (buildIndex (corpusDiseases corpus)) }

/-- Modelled from the spec: a retraining run replaces the whole store with
the artifacts rebuilt from the corpus — no partial updates
(spec sections 3 and 6). -/
def rebuild (corpus : List RawRecord) (_old : Store) : Store :=
  trainAll corpus

/-- Which of the five artifact kinds are present in a store. -/
def presentKinds (s : Store) : Bool × Bool × Bool × Bool × Bool :=
  (s.disease.isSome, s.severity.isSome, s.emergency.isSome,
    s.symIndex.isSome, s.disIndex.isSome)

/-- JavaScript whitespace trim on a character list: drop leading and
trailing whitespace. -/
def jsTrimL (l : List Char) : List Char :=
  ((l.dropWhile Char.isWhitespace).reverse.dropWhile Char.isWhitespace).reverse

/-- JavaScript `String.prototype.trim`, over the character data of the
string. -/
def jsTrim (s : String) : String := String.mk (jsTrimL s.data)

/-- JavaScript `String.prototype.toLowerCase` (ASCII range), over the
character data of the string. -/
def jsToLower (s : String) : String := String.mk (s.data.map Char.toLower)

/-- JavaScript `String.prototype.split` on a character class: separators
delimit fields, and leading, trailing or adjacent separators produce
empty fields. -/
def splitOnL (p : Char → Bool) : List Char → List (List Char)
  | [] => [[]]
  | c :: rest =>
    if p c then [] :: splitOnL p rest
    else
      match splitOnL p rest with
      | [] => [[c]]
      | h :: t => (c :: h) :: t

/-- `Array.prototype.join` with a single-character separator. -/
def joinWithChar (sep : Char) : List (List Char) → List Char
  | [] => []
  | [l] => l
  | l :: rest => l ++ sep :: joinWithChar sep rest

/-- `ChatInput.handleSubmit` (src/components/ChatInput.tsx, bundled in
src/src/components/FeverEaseAvatar.tsx lines 114-131): the message is sent
(trimmed) only when its trim is nonempty and the input is not disabled;
otherwise no send happens.  The returned option is the argument passed to
`onSendMessage`, if any. -/
def handleSubmit (message : String) (disabled : Bool) : Option String :=
  if jsTrim message != "" && !disabled then some (jsTrim message) else none

/-- The error message thrown by `getApiUrl` (src/src/config/api.ts). -/
def viteApiUrlMissingMsg : String :=
  "VITE_API_URL not found in environment variables"

/-- `getApiUrl` (src/src/config/api.ts lines 4-16): the JavaScript test
`!url` is true exactly when the environment variable is undefined or the
empty string; in that case an Error is thrown, otherwise the value is
returned unchanged.  There is no localhost default. -/
def getApiUrl (env : Option String) : Except String String :=
  match env with
  | none => Except.error viteApiUrlMissingMsg
  | some url =>
    if url = "" then Except.error viteApiUrlMissingMsg else Except.ok url

/-- The `ENDPOINTS` record of src/src/config/api.ts. -/
structure Endpoints where
  CHAT : String
  ANALYZE_SYMPTOMS : String
  MEDICINE_INFO : String
  MEDICINE_SEARCH : String
deriving DecidableEq

/-- `ENDPOINTS` (src/src/config/api.ts lines 22-27): each endpoint is the
base URL concatenated with its fixed path suffix. -/
def mkEndpoints (base : String) : Endpoints :=
  { CHAT := base ++ "/api/chat"
    ANALYZE_SYMPTOMS := base ++ "/api/analyze-symptoms"
    MEDICINE_INFO := base ++ "/api/medicine-info"
    MEDICINE_SEARCH := base ++ "/api/medicine-search" }

/-- A conversation row as held by the Index component
(src/src/components/ByteMedAvatar.tsx lines 47-51). -/
structure Conversation where
  id : String
  created_at : String
  title : String
deriving DecidableEq

/-- A chat message as held by the Index component
(src/src/components/ByteMedAvatar.tsx lines 40-45); the timestamp is kept
as an opaque string. -/
structure ChatMessageItem where
  id : String
  role : String
  content : String
deriving DecidableEq

/-- The slice of the Index component state touched by
`handleDeleteConversation` (src/src/components/ByteMedAvatar.tsx). -/
structure ChatState where
  messages : List ChatMessageItem
  currentConversationId : Option String
  conversations : List Conversation
deriving DecidableEq

/-- `Index.handleDeleteConversation` (src/src/components/ByteMedAvatar.tsx
lines 314-355).  `userPresent` is whether `user` is non-null; `msgDelOk`
and `convDelOk` are whether the two supabase delete calls succeed.  When
the deleted id is the currently selected conversation, messages and the
selection are cleared immediately, before the database calls; a failing
call aborts via the catch block (only a toast, no further state change);
on success the conversation is filtered out of the local list. -/
def handleDeleteConversation (userPresent msgDelOk convDelOk : Bool)
    (st : ChatState) (id : String) : ChatState :=
  if !userPresent then st
  else
    let st1 :=
      if st.currentConversationId = some id then
        { st with messages := [], currentConversationId := none }
      else st
    if !msgDelOk then st1
    else if !convDelOk then st1
    else { st1 with
      conversations := st1.conversations.filter (fun c => c.id != id) }

/-- A medicine item parsed from a prescription
(src/src/pages/FollowDoses.tsx lines 8-12). -/
structure MedItem where
  name : String
  dose : Option String
  timesPerDay : Nat
deriving DecidableEq

/-- The result record of `simpleParsePrescription`
(src/src/pages/FollowDoses.tsx line 75). -/
structure ParsedPrescription where
  patientName : Option String
  prescribedDate : Option String
  meds : List MedItem
deriving DecidableEq

/-- Substring test on character lists (the semantics of a JavaScript
`.test` of a literal alternative). -/
def containsSub (pat : List Char) : List Char → Bool
  | [] => pat.isEmpty
  | c :: rest => pat.isPrefixOf (c :: rest) || containsSub pat rest

/-- Case-sensitive substring test on strings. -/
def strContains (hay pat : String) : Bool := containsSub pat.toList hay.toList

/-- Value of a digit-character run, as `parseInt` reads it. -/
def digitsToNat (ds : List Char) : Nat :=
  ds.foldl (fun a c => a * 10 + (c.toNat - 48)) 0

/-- The alternatives of the frequency regex
`/(\d+)\s*(times|x|per|per day)/i` of FollowDoses.tsx line 48. -/
def freqKeywords : List String := ["times", "x", "per", "per day"]

/-- Whether a frequency keyword starts at this position (on a lowercased
line, matching the `/i` flag). -/
def keywordAt (l : List Char) : Bool :=
  freqKeywords.any (fun k => k.toList.isPrefixOf l)

/-- Leftmost match of `/(\d+)\s*(times|x|per|per day)/i`, returning the
value of the first capture group.  A maximal digit run is correct here:
shrinking `\d+` leaves a digit where the keyword would have to start, so
backtracking inside a run can never succeed, and the scan advancing one
character at a time reproduces the leftmost-match rule. -/
def tpScan : List Char → Option Nat
  | [] => none
  | c :: rest =>
    if c.isDigit then
      let ds := (c :: rest).takeWhile Char.isDigit
      let tail := ((c :: rest).dropWhile Char.isDigit).dropWhile Char.isWhitespace
      if keywordAt tail then some (digitsToNat ds) else tpScan rest
    else tpScan rest

/-- `/twice|bid|2x/i.test(line)` of FollowDoses.tsx line 50. -/
def twiceTest (lower : String) : Bool :=
  strContains lower ("twice") || strContains lower ("bid") ||
    strContains lower ("2x")

/-- `/thrice|tid|3x/i.test(line)` of FollowDoses.tsx line 51. -/
def thriceTest (lower : String) : Bool :=
  strContains lower ("thrice") || strContains lower ("tid") ||
    strContains lower ("3x")

/-- FollowDoses.tsx lines 47-51: the frequency parsed from one line.  The
default is 1; a number before a frequency keyword is used via
`parseInt(tp[1], 10) || 1` (so a parsed 0 falls back to 1); otherwise the
twice/thrice word tests give 2 or 3.  The unused `freqMatch` of line 45
(a syntactically broken regex literal) is dead code and not modelled. -/
def lineTimesPerDay (lower : String) : Nat :=
  match tpScan lower.toList with
  | some n => if n = 0 then 1 else n
  | none => if twiceTest lower then 2 else if thriceTest lower then 3 else 1

/-- The word alternatives of `/\d|mg|ml|tablet|tab|capsule|cap/i`
(FollowDoses.tsx line 54). -/
def medKeywords : List String := ["mg", "ml", "tablet", "tab", "capsule", "cap"]

/-- FollowDoses.tsx line 54: a line is treated as a medicine when it has a
letter and either a digit or one of the unit/form words. -/
def medLineTest (line : String) : Bool :=
  line.toList.any Char.isAlpha &&
    (line.toList.any Char.isDigit ||
      medKeywords.any (fun k => strContains (jsToLower line) k))

/-- FollowDoses.tsx lines 56-57: the name is the first nonempty trimmed
part of the line split on dash, comma or colon; an absent part falls back
to the whole line (`name || line`). -/
def splitName (line : String) : String :=
  let parts :=
    ((splitOnL (fun c => c == '-' || c == ',' || c == ':') line.data).map
      (fun l => String.mk (jsTrimL l))).filter (fun p => p != "")
  match parts with
  | [] => line
  | p :: _ => p

/-- The unit alternatives of `/(\d+\s*(mg|ml|g))/i` (FollowDoses.tsx
line 59), in the order the regex alternation tries them. -/
def doseUnits : List String := ["mg", "ml", "g"]

/-- The unit matched at this position, case-insensitively, returning the
original-case characters consumed. -/
def unitAt (l : List Char) : Option (List Char) :=
  doseUnits.findSome? (fun u =>
    if u.toList.isPrefixOf (l.map Char.toLower) then some (l.take u.length)
    else none)

/-- Leftmost match of `/(\d+\s*(mg|ml|g))/i`, returning the matched text
(digits, the whitespace consumed by `\s*`, and the unit, in original
case).  Maximal digit and whitespace runs are correct because neither a
digit nor a whitespace character can start a unit alternative. -/
def doseScan : List Char → Option (List Char)
  | [] => none
  | c :: rest =>
    if c.isDigit then
      let ds := (c :: rest).takeWhile Char.isDigit
      let afterDigits := (c :: rest).dropWhile Char.isDigit
      let ws := afterDigits.takeWhile Char.isWhitespace
      let tail := afterDigits.dropWhile Char.isWhitespace
      match unitAt tail with
      | some u => some (ds ++ ws ++ u)
      | none => doseScan rest
    else doseScan rest

/-- `line.match(/(\d+\s*(mg|ml|g))/i)` of FollowDoses.tsx line 59,
returning `m[0]`. -/
def doseMatch (line : String) : Option String :=
  (doseScan line.toList).map (fun cs => String.mk cs)

/-- FollowDoses.tsx lines 33: a name line starts (lowercased) with
`name:` or `patient:`. -/
def nameLineTest (lower : String) : Bool :=
  ("name:").data.isPrefixOf lower.data || ("patient:").data.isPrefixOf lower.data

/-- Consume exactly `n` leading digits, as a fixed `\d{n}` quantifier. -/
def matchExactDigits (n : Nat) (l : List Char) : Option (List Char) :=
  let pre := l.take n
  if pre.length == n && pre.all Char.isDigit then some (l.drop n) else none

/-- Consume one expected literal character. -/
def matchLit (c : Char) : List Char → Option (List Char)
  | [] => none
  | d :: rest => if d == c then some rest else none

/-- Whether `\d{4}-\d{2}-\d{2}` matches at this position. -/
def isoDateHere (l : List Char) : Bool :=
  match matchExactDigits 4 l with
  | none => false
  | some l1 =>
    match matchLit '-' l1 with
    | none => false
    | some l2 =>
      match matchExactDigits 2 l2 with
      | none => false
      | some l3 =>
        match matchLit '-' l3 with
        | none => false
        | some l4 => (matchExactDigits 2 l4).isSome

/-- The remainders after consuming between `lo` and `hi` leading digits,
longest (greediest) first, as a `\d{lo,hi}` quantifier backtracks. -/
def matchDigitRange (lo hi : Nat) (l : List Char) : List (List Char) :=
  (List.range (hi + 1 - lo)).filterMap (fun j =>
    let n := hi - j
    let pre := l.take n
    if pre.length == n && pre.all Char.isDigit then some (l.drop n) else none)

/-- Greedy match of `\d{1,2}\/\d{1,2}\/\d{2,4}` at this position, returning
the remainder after the match, in JavaScript backtracking order. -/
def slashHere (l : List Char) : Option (List Char) :=
  (matchDigitRange 1 2 l).findSome? (fun l1 =>
    (matchLit '/' l1).bind (fun l2 =>
      (matchDigitRange 1 2 l2).findSome? (fun l3 =>
        (matchLit '/' l3).bind (fun l4 =>
          (matchDigitRange 2 4 l4).head?))))

/-- Whether a position-wise test matches anywhere in the list. -/
def anyPosTest (p : List Char → Bool) : List Char → Bool
  | [] => false
  | c :: rest => p (c :: rest) || anyPosTest p rest

/-- Leftmost match of `/(\d{4}-\d{2}-\d{2})|(\d{1,2}\/\d{1,2}\/\d{2,4})/`
(FollowDoses.tsx line 39), returning `m[0]`: at each position the ISO
alternative is tried first, then the slash alternative. -/
def dateRegexScan : List Char → Option (List Char)
  | [] => none
  | c :: rest =>
    if isoDateHere (c :: rest) then some ((c :: rest).take 10)
    else
      match slashHere (c :: rest) with
      | some remainder =>
        some ((c :: rest).take ((c :: rest).length - remainder.length))
      | none => dateRegexScan rest

/-- `line.split(":").slice(1).join(":").trim()` of FollowDoses.tsx
lines 34 and 40. -/
def afterColon (line : String) : String :=
  String.mk (jsTrimL (joinWithChar ':'
    ((splitOnL (fun c => c == ':') line.data).drop 1)))

/-- FollowDoses.tsx line 37: the date-line test. -/
def dateLineTest (lower : String) (line : String) : Bool :=
  ("date:").data.isPrefixOf lower.data || anyPosTest isoDateHere line.toList ||
    anyPosTest (fun l => (slashHere l).isSome) line.toList

/-- The mutable state of the first parsing loop of
`simpleParsePrescription` (FollowDoses.tsx lines 27-29). -/
structure ParseState where
  patientName : Option String
  prescribedDate : Option String
  meds : List MedItem
deriving DecidableEq

/-- One iteration of the first loop of `simpleParsePrescription`
(FollowDoses.tsx lines 31-63): name lines and date lines are consumed
first (each at most once, then `continue`); any other line that passes the
medicine test is pushed with the frequency parsed from it. -/
def parseLine (st : ParseState) (line : String) : ParseState :=
  let lower := jsToLower line
  if st.patientName.isNone && nameLineTest lower then
    { st with patientName := some (afterColon line) }
  else if st.prescribedDate.isNone && dateLineTest lower line then
    { st with prescribedDate := some (match dateRegexScan line.toList with
        | some cs => String.mk cs
        | none => afterColon line) }
  else
    if medLineTest line then
      { st with meds := st.meds ++ [{
          name := splitName line,
          dose := doseMatch line,
          timesPerDay := lineTimesPerDay lower }] }
    else st

/-- `text.split(/\r?\n/).map((l) => l.trim()).filter(Boolean)` of
FollowDoses.tsx line 26 (the trim also removes a carriage return left by
splitting on the bare newline). -/
def prescriptionLines (text : String) : List String :=
  ((splitOnL (fun c => c == '\n') text.data).map
    (fun l => String.mk (jsTrimL l))).filter (fun l => l != "")

/-- Character class `[A-Za-z\s]` of the fallback regex
(FollowDoses.tsx line 68). -/
def alphaSpace (c : Char) : Bool := c.isAlpha || c.isWhitespace

/-- The nonempty prefixes of the maximal run of `p`-characters and their
remainders, longest (greediest) first — the backtracking candidates of a
greedy `+` quantifier over the class `p`. -/
def runCandidates (p : Char → Bool) (l : List Char) :
    List (List Char × List Char) :=
  (List.range (l.takeWhile p).length).map (fun j =>
    let n := (l.takeWhile p).length - j
    (l.take n, l.drop n))

/-- Match of `/([A-Za-z\s]+)\s+(\d+\s*(mg|ml|g))\s*(\d)\s*x?/i` anchored at
this position (FollowDoses.tsx line 68), built from the captures: the
name `m[1].trim()`, the dose `m[2].trim()` and the single digit `m[4]`
with `parseInt(m[4], 10) || 1`.  Only the leading `[A-Za-z\s]+` needs
backtracking (it can swallow the whitespace the following `\s+` needs);
the digit and whitespace runs are maximal for the same reason as in
`doseScan`, and the trailing `\s*x?` always matches. -/
def fallbackHere (l : List Char) : Option MedItem :=
  (runCandidates alphaSpace l).findSome? (fun nameRest =>
    let ws1 := nameRest.2.takeWhile Char.isWhitespace
    if ws1.isEmpty then none
    else
      let r2 := nameRest.2.dropWhile Char.isWhitespace
      let ds := r2.takeWhile Char.isDigit
      if ds.isEmpty then none
      else
        let r3 := r2.dropWhile Char.isDigit
        let ws2 := r3.takeWhile Char.isWhitespace
        let r4 := r3.dropWhile Char.isWhitespace
        match unitAt r4 with
        | none => none
        | some u =>
          let r5 := r4.drop u.length
          match r5.dropWhile Char.isWhitespace with
          | [] => none
          | d :: _ =>
            if d.isDigit then
              some { name := String.mk (jsTrimL nameRest.1)
                     dose := some (String.mk (jsTrimL (ds ++ ws2 ++ u)))
                     timesPerDay :=
                       if d.toNat - 48 = 0 then 1 else d.toNat - 48 }
            else none)

/-- Leftmost match of the fallback regex in a line
(FollowDoses.tsx line 68). -/
def fallbackScan : List Char → Option MedItem
  | [] => none
  | c :: rest =>
    match fallbackHere (c :: rest) with
    | some m => some m
    | none => fallbackScan rest

/-- `simpleParsePrescription` (src/src/pages/FollowDoses.tsx lines 24-76):
the first loop collects the patient name, the prescribed date and the
medicine lines; when it produced no medicines, a second pass over the
lines collects every line matched by the fallback regex. -/
def simpleParsePrescription (text : String) : ParsedPrescription :=
  let lines := prescriptionLines text
  let st := lines.foldl parseLine
    { patientName := none, prescribedDate := none, meds := [] }
  let meds :=
    if st.meds.isEmpty then lines.filterMap (fun l => fallbackScan l.toList)
    else st.meds
  { patientName := st.patientName
    prescribedDate := st.prescribedDate
    meds := meds }

/-- A concrete artifact snapshot used to exercise the Decision Engine: the
severity classifier is loaded but returns the out-of-range raw value 99,
and the emergency classifier artifact is absent. -/
def artsW : Artifacts :=
  { disease := none
    severity := some (fun _ => some 99)
    emergency := none
    symIndex := none
    disIndex := none }

/-- A concrete knowledge-base collaborator used to exercise the Decision
Engine. -/
def kbW : KnowledgeBase :=
  { fallbackDisease := fun _ => ("Flu", 1)
    fallbackSeverity := fun _ => 5
    fallbackEmergency := fun _ => true }

/-- A concrete similarity index containing the query vector under key `b`,
a tie under key `a`, and an orthogonal entry under key `c`. -/
def idxW : List IndexEntry :=
  [{ key := "b", vec := [1, 0] }, { key := "a", vec := [1, 0] },
    { key := "c", vec := [0, 1] }]

/-- A concrete one-record corpus: a disease label and a severity label are
present, no emergency label. -/
def corpusW : List RawRecord :=
  [{ symptom_set := ["fever", "headache", "body_ache"]
     disease_label := some "Flu"
     severity_label := some 5
     emergency_label := none }]

/-- A concrete chat state with two conversations, the first selected. -/
def chatStateW : ChatState :=
  { messages := [{ id := "m1", role := "user", content := "hi" }]
    currentConversationId := some "c1"
    conversations := [{ id := "c1", created_at := "t1", title := "New Chat" },
      { id := "c2", created_at := "t2", title := "New Chat" }] }
theorem dot_cons (a b : ℚ) (x y : Vec) :
    dot (a :: x) (b :: y) = a * b + dot x y := by
  simp [dot]

theorem dot_nil_left (y : Vec) : dot [] y = 0 := by
  simp [dot]

theorem dot_nil_right (x : Vec) : dot x [] = 0 := by
  cases x <;> simp [dot]

theorem nsq_nonneg (x : Vec) : 0 ≤ nsq x := by
  induction x with
  | nil => simp [nsq, dot]
  | cons a t ih =>
    have h : nsq (a :: t) = a * a + nsq t := by simp [nsq, dot_cons]
    nlinarith [mul_self_nonneg a]

/-- Cauchy-Schwarz inequality for list dot products. -/
theorem dot_sq_le (x y : Vec) : dot x y ^ 2 ≤ nsq x * nsq y := by
  induction x generalizing y with
  | nil =>
    have h0 : nsq ([] : Vec) = 0 := by simp [nsq, dot]
    simp [dot_nil_left, h0]
  | cons a xs ih =>
    cases y with
    | nil =>
      have h0 : nsq ([] : Vec) = 0 := by simp [nsq, dot]
      simp [dot_nil_right, h0]
    | cons b ys =>
      have h := ih ys
      have hA := nsq_nonneg xs
      have hB := nsq_nonneg ys
      have h1 : dot (a :: xs) (b :: ys) = a * b + dot xs ys := dot_cons a b xs ys
      have h2 : nsq (a :: xs) = a * a + nsq xs := by simp [nsq, dot_cons]
      have h3 : nsq (b :: ys) = b * b + nsq ys := by simp [nsq, dot_cons]
      rw [h1, h2, h3]
      rcases eq_or_lt_of_le hA with hA0 | hApos
      · have hD : dot xs ys = 0 := by nlinarith [sq_nonneg (dot xs ys)]
        rw [← hA0, hD]
        nlinarith [mul_nonneg (mul_self_nonneg a) hB]
      · have key : nsq xs * ((a * a + nsq xs) * (b * b + nsq ys)
            - (a * b + dot xs ys) ^ 2)
            = (a * dot xs ys - b * nsq xs) ^ 2
              + (a * a + nsq xs) * (nsq xs * nsq ys - dot xs ys ^ 2) := by
          ring
        nlinarith [sq_nonneg (a * dot xs ys - b * nsq xs),
          mul_nonneg (add_nonneg (mul_self_nonneg a) hA) (sub_nonneg.mpr h),
          key, hApos]

theorem ssq_le_sq (x : ℚ) : ssq x ≤ x ^ 2 := by
  rcases abs_cases x with ⟨h1, _⟩ | ⟨h1, _⟩ <;> unfold ssq <;> nlinarith

theorem simScore_self (q : Vec) : simScore q q = nsq q := by
  unfold simScore
  by_cases hq : nsq q = 0
  · simp [hq]
  · have hd : dot q q = nsq q := rfl
    have habs : |dot q q| = nsq q := by
      rw [hd]; exact abs_of_nonneg (nsq_nonneg q)
    rw [if_neg hq]
    unfold ssq
    rw [habs, hd]
    field_simp

/-- The vector `q` itself attains the maximum similarity score with `q`
among all vectors. -/
theorem simScore_le_self (q v : Vec) : simScore q v ≤ simScore q q := by
  rw [simScore_self]
  unfold simScore
  by_cases hv : nsq v = 0
  · simpa [hv] using nsq_nonneg q
  · have hvpos : 0 < nsq v := lt_of_le_of_ne (nsq_nonneg v) (Ne.symm hv)
    rw [if_neg hv, div_le_iff₀ hvpos]
    calc ssq (dot q v) ≤ dot q v ^ 2 := ssq_le_sq (dot q v)
    _ ≤ nsq q * nsq v := dot_sq_le q v

theorem clampSeverity_ge_one (q : ℚ) : 1 ≤ clampSeverity q :=
  le_min (by norm_num) (le_max_left 1 (round q))

theorem clampSeverity_le_ten (q : ℚ) : clampSeverity q ≤ 10 :=
  min_le_left 10 (max 1 (round q))

theorem severityOutput_bounds (arts : Artifacts) (kb : KnowledgeBase)
    (symptoms : List String) (v : Vec) :
    1 ≤ (severityOutput arts kb symptoms v).1 ∧
      (severityOutput arts kb symptoms v).1 ≤ 10 := by
  cases h1 : arts.severity with
  | none =>
    simp only [severityOutput, h1]
    exact ⟨clampSeverity_ge_one _, clampSeverity_le_ten _⟩
  | some m =>
    cases h2 : m v with
    | none =>
      simp only [severityOutput, h1, h2]
      exact ⟨clampSeverity_ge_one _, clampSeverity_le_ten _⟩
    | some raw =>
      simp only [severityOutput, h1, h2]
      exact ⟨clampSeverity_ge_one _, clampSeverity_le_ten _⟩

theorem decisionEngine_eq_some (arts : Artifacts) (kb : KnowledgeBase)
    (symptoms : List String) (h : symptoms ≠ []) :
    decisionEngine arts kb symptoms = some {
      predicted_disease := (diseaseOutput arts kb symptoms (encode symptoms)).1
      disease_confidence := (diseaseOutput arts kb symptoms (encode symptoms)).2.1
      severity_score := (severityOutput arts kb symptoms (encode symptoms)).1
      emergency_flag := (emergencyOutput arts kb symptoms (encode symptoms)).1
      disease_source := (diseaseOutput arts kb symptoms (encode symptoms)).2.2
      severity_source := (severityOutput arts kb symptoms (encode symptoms)).2
      emergency_source := (emergencyOutput arts kb symptoms (encode symptoms)).2
      similar_symptoms := indexContext (encode symptoms) arts.symIndex
      similar_diseases := indexContext (encode symptoms) arts.disIndex } := by
  have hne : symptoms.isEmpty = false := by
    cases symptoms with
    | nil => exact absurd rfl h
    | cons a t => rfl
  simp [decisionEngine, hne]

/-- Claim C1: for every Decision produced by the Decision Engine from a
non-empty symptom set, the severity_score is an integer in [1,10] and the
emergency_flag is a boolean, regardless of which artifacts are loaded,
even when an underlying classifier returns out-of-range or missing
output. -/
theorem decision_invariant_severity_emergency (arts : Artifacts)
    (kb : KnowledgeBase) (symptoms : List String) (h : symptoms ≠ []) :
    ∃ d : Decision, decisionEngine arts kb symptoms = some d ∧
      1 ≤ d.severity_score ∧ d.severity_score ≤ 10 ∧
      (d.emergency_flag = true ∨ d.emergency_flag = false) := by
  refine ⟨_, decisionEngine_eq_some arts kb symptoms h, ?_, ?_, ?_⟩
  · exact (severityOutput_bounds arts kb symptoms (encode symptoms)).1
  · exact (severityOutput_bounds arts kb symptoms (encode symptoms)).2
  · exact Bool.eq_false_or_eq_true _

/-- Witness for claim C1 at a concrete input: one symptom, a loaded
severity classifier returning the out-of-range value 99, the emergency
artifact absent. -/
theorem decision_invariant_severity_emergency_witness :
    (["fever"] : List String) ≠ [] ∧
      ∃ d : Decision, decisionEngine artsW kbW ["fever"] = some d ∧
        1 ≤ d.severity_score ∧ d.severity_score ≤ 10 ∧
        (d.emergency_flag = true ∨ d.emergency_flag = false) :=
  ⟨by decide, decision_invariant_severity_emergency artsW kbW ["fever"]
    (by decide)⟩

/-- Claim C2: while the emergency classifier artifact is absent, the
Decision Engine returns an emergency_flag equal to the knowledge-base
fallback estimate, and the provenance of that field is fallback, not
model. -/
theorem emergency_fallback_provenance (arts : Artifacts) (kb : KnowledgeBase)
    (symptoms : List String) (habs : arts.emergency = none)
    (h : symptoms ≠ []) :
    ∃ d : Decision, decisionEngine arts kb symptoms = some d ∧
      d.emergency_flag = kb.fallbackEmergency symptoms ∧
      d.emergency_source = Provenance.fallback ∧
      d.emergency_source ≠ Provenance.model := by
  refine ⟨_, decisionEngine_eq_some arts kb symptoms h, ?_, ?_, ?_⟩ <;>
    simp [emergencyOutput, habs]

/-- Witness for claim C2 at a concrete input: the emergency artifact of
`artsW` is absent and the knowledge-base fallback estimate is used. -/
theorem emergency_fallback_provenance_witness :
    artsW.emergency = none ∧ (["fever"] : List String) ≠ [] ∧
      ∃ d : Decision, decisionEngine artsW kbW ["fever"] = some d ∧
        d.emergency_flag = kbW.fallbackEmergency ["fever"] ∧
        d.emergency_source = Provenance.fallback ∧
        d.emergency_source ≠ Provenance.model :=
  ⟨rfl, by decide, emergency_fallback_provenance artsW kbW ["fever"] rfl
    (by decide)⟩

theorem isDataError_loadTarget {α : Type} (ex : List α) :
    isDataError (loadTarget ex) = true ↔ ex = [] := by
  cases ex <;> simp [loadTarget, isDataError]

/-- Claim C3: the Corpus Loader raises DataError for a target classifier if
and only if that classifier's training set is empty after loading; a
corpus with zero records for the emergency label raises DataError for the
emergency classifier only, while disease and severity training still
succeed. -/
theorem dataerror_iff_empty_target (corpus : List RawRecord) :
    (isDataError (trainDisease corpus) = true ↔ diseaseExamples corpus = []) ∧
    (isDataError (trainSeverity corpus) = true ↔ severityExamples corpus = []) ∧
    (isDataError (trainEmergency corpus) = true ↔
      emergencyExamples corpus = []) ∧
    (emergencyExamples corpus = [] → diseaseExamples corpus ≠ [] →
      severityExamples corpus ≠ [] →
      isDataError (trainEmergency corpus) = true ∧
      isDataError (trainDisease corpus) = false ∧
      isDataError (trainSeverity corpus) = false) := by
  refine ⟨isDataError_loadTarget _, isDataError_loadTarget _,
    isDataError_loadTarget _, ?_⟩
  intro hem hdis hsev
  refine ⟨(isDataError_loadTarget _).mpr hem, ?_, ?_⟩
  · cases hd : isDataError (trainDisease corpus) with
    | false => rfl
    | true => exact absurd ((isDataError_loadTarget _).mp hd) hdis
  · cases hs : isDataError (trainSeverity corpus) with
    | false => rfl
    | true => exact absurd ((isDataError_loadTarget _).mp hs) hsev

/-- Witness for claim C3 at a concrete corpus: one record with a disease
and a severity label but no emergency label — emergency training fails
with DataError, disease and severity training succeed. -/
theorem dataerror_iff_empty_target_witness :
    emergencyExamples corpusW = [] ∧ diseaseExamples corpusW ≠ [] ∧
      severityExamples corpusW ≠ [] ∧
      isDataError (trainEmergency corpusW) = true ∧
      isDataError (trainDisease corpusW) = false ∧
      isDataError (trainSeverity corpusW) = false := by
  refine ⟨by decide, by decide, by decide, ?_⟩
  exact (dataerror_iff_empty_target corpusW).2.2.2 (by decide) (by decide)
    (by decide)

/-- Claim C4: the Feature Encoder is deterministic — two encoding runs on
identical symptom sets yield identical vectors.  In this pure-functional
embedding a run is an application of `encode`, so determinism is exactly
that equal inputs give equal outputs. -/
theorem encode_deterministic (s t : List String) (h : s = t) :
    encode s = encode t := by
  rw [h]

/-- Witness for claim C4 at a concrete symptom set. -/
theorem encode_deterministic_witness :
    (["fever", "headache"] : List String) = ["fever", "headache"] ∧
      encode ["fever", "headache"] = encode ["fever", "headache"] :=
  ⟨rfl, encode_deterministic ["fever", "headache"] ["fever", "headache"] rfl⟩

/-- Claim C6: the training entry point (rebuild all artifacts from the
current corpus) is idempotent in effect: rerunning it on an unchanged
corpus yields the same store, and in particular the same pattern of
present and absent artifact kinds. -/
theorem rebuild_idempotent (corpus : List RawRecord) (s : Store) :
    rebuild corpus (rebuild corpus s) = rebuild corpus s ∧
      presentKinds (rebuild corpus (rebuild corpus s)) =
        presentKinds (rebuild corpus s) :=
  ⟨rfl, rfl⟩

/-- Claim C5: a similarity-index query with vector `q` and parameter `k`
returns the `k` top entries of a ranking of the whole index by descending
similarity with lexical tie-break; when the query vector itself is
present in the index, it attains the maximum possible similarity score
and ranks (in the `Ranked` order) before every entry whose key is not
lexically smaller — it is first among its ties. -/
theorem similarity_query_ranked (idx : List IndexEntry) (q : Vec) (k : Nat)
    (ke : String) (_hmem : IndexEntry.mk ke q ∈ idx) :
    (querySim q idx k).length = min k idx.length ∧
    (∃ s : List IndexEntry, s.Perm idx ∧ List.Sorted (Ranked q) s ∧
      querySim q idx k = s.take k) ∧
    (∀ e ∈ idx, simScore q e.vec ≤ simScore q q) ∧
    (∀ e ∈ idx, ke ≤ e.key → Ranked q (IndexEntry.mk ke q) e) := by
  refine ⟨?_, ⟨List.insertionSort (Ranked q) idx,
    List.perm_insertionSort (Ranked q) idx,
    List.sorted_insertionSort (Ranked q) idx, rfl⟩, ?_, ?_⟩
  · rw [querySim, List.length_take,
      (List.perm_insertionSort (Ranked q) idx).length_eq]
  · intro e _
    exact simScore_le_self q e.vec
  · intro e _ hk
    rcases lt_or_eq_of_le (simScore_le_self q e.vec) with hlt | heq
    · exact Or.inl hlt
    · exact Or.inr ⟨heq.symm, hk⟩

/-- Witness for claim C5 at a concrete index: the query vector `[1, 0]` is
present under key `a`; its score dominates every entry of the index, and
it ranks before the tie under key `b`. -/
theorem similarity_query_ranked_witness :
    IndexEntry.mk "a" [1, 0] ∈ idxW ∧
      (∀ e ∈ idxW, simScore [1, 0] e.vec ≤ simScore [1, 0] [1, 0]) ∧
      (∀ e ∈ idxW, "a" ≤ e.key →
        Ranked [1, 0] (IndexEntry.mk "a" [1, 0]) e) :=
  ⟨by decide, (similarity_query_ranked idxW [1, 0] 2 "a" (by decide)).2.2.1,
    (similarity_query_ranked idxW [1, 0] 2 "a" (by decide)).2.2.2⟩

/-- Claim C7: an empty or whitespace-only symptom input is rejected before
encoding: at the UI boundary `ChatInput.handleSubmit` never invokes
`onSendMessage` for a message whose trim is empty, and the Decision
Engine produces no Decision for an empty symptom set. -/
theorem empty_input_rejected (message : String) (disabled : Bool)
    (h : jsTrim message = "") :
    handleSubmit message disabled = none ∧
      ∀ (arts : Artifacts) (kb : KnowledgeBase),
        decisionEngine arts kb [] = none := by
  constructor
  · simp [handleSubmit, h]
  · intro arts kb
    rfl

/-- Witness for claim C7 at a concrete whitespace-only input. -/
theorem empty_input_rejected_witness :
    jsTrim "   " = "" ∧
      (handleSubmit "   " false = none ∧
        ∀ (arts : Artifacts) (kb : KnowledgeBase),
          decisionEngine arts kb [] = none) :=
  ⟨by decide, empty_input_rejected "   " false (by decide)⟩

/-- Claim C8: evaluating the API configuration throws exactly when
VITE_API_URL is unset or empty (no localhost default); otherwise the base
URL is exactly the variable's value and each of the four endpoints is the
base URL concatenated with its fixed path suffix. -/
theorem api_url_required (env : Option String) :
    ((∃ msg, getApiUrl env = Except.error msg) ↔
      (env = none ∨ env = some "")) ∧
    (∀ url, getApiUrl env = Except.ok url →
      env = some url ∧
      mkEndpoints url = {
        CHAT := url ++ "/api/chat"
        ANALYZE_SYMPTOMS := url ++ "/api/analyze-symptoms"
        MEDICINE_INFO := url ++ "/api/medicine-info"
        MEDICINE_SEARCH := url ++ "/api/medicine-search" }) := by
  cases env with
  | none =>
    refine ⟨⟨fun _ => Or.inl rfl, fun _ => ⟨viteApiUrlMissingMsg, rfl⟩⟩, ?_⟩
    intro url hurl
    exact absurd hurl (by simp [getApiUrl])
  | some u =>
    by_cases hu : u = ""
    · subst hu
      refine ⟨⟨fun _ => Or.inr rfl, fun _ => ⟨viteApiUrlMissingMsg, rfl⟩⟩, ?_⟩
      intro url hurl
      exact absurd hurl (by simp [getApiUrl])
    · constructor
      · constructor
        · rintro ⟨msg, hmsg⟩
          rw [getApiUrl, if_neg hu] at hmsg
          exact absurd hmsg (by simp)
        · rintro (h | h) <;> simp_all
      · intro url hurl
        rw [getApiUrl, if_neg hu] at hurl
        cases hurl
        exact ⟨rfl, rfl⟩

/-- Witness for claim C8 at a concrete URL value. -/
theorem api_url_required_witness :
    getApiUrl (some "http://localhost:8000")
        = Except.ok "http://localhost:8000" ∧
      (some "http://localhost:8000" = some "http://localhost:8000" ∧
        mkEndpoints "http://localhost:8000" = {
          CHAT := "http://localhost:8000" ++ "/api/chat"
          ANALYZE_SYMPTOMS := "http://localhost:8000" ++ "/api/analyze-symptoms"
          MEDICINE_INFO := "http://localhost:8000" ++ "/api/medicine-info"
          MEDICINE_SEARCH :=
            "http://localhost:8000" ++ "/api/medicine-search" }) :=
  ⟨rfl, (api_url_required (some "http://localhost:8000")).2
    "http://localhost:8000" rfl⟩

theorem filter_ne_eq_eraseP (l : List Conversation) (id : String)
    (h : (l.map (fun c => c.id)).Nodup) :
    l.filter (fun c => c.id != id) = l.eraseP (fun c => c.id == id) := by
  induction l with
  | nil => rfl
  | cons c t ih =>
    rw [List.map_cons, List.nodup_cons] at h
    by_cases hcid : c.id = id
    · subst hcid
      rw [List.filter_cons_of_neg (by simp), List.eraseP_cons_of_pos (by simp)]
      apply List.filter_eq_self.mpr
      intro a ha
      simp only [bne_iff_ne, ne_eq]
      intro heq
      exact h.1 (heq ▸ List.mem_map_of_mem (fun x => x.id) ha)
    · rw [List.filter_cons_of_pos (by simpa using hcid),
        List.eraseP_cons_of_neg (by simpa using hcid), ih h.2]

/-- Claim C10: with a user signed in, deleting a conversation whose id
differs from the current selection leaves messages and the selection
unchanged, and on success removes exactly the conversations carrying that
id from the list (under the database invariant of distinct ids, exactly
that one conversation); deleting the currently selected conversation —
and only that — clears messages and resets the selection to null. -/
theorem delete_conversation_frame (st : ChatState) (id : String)
    (msgDelOk convDelOk : Bool) :
    (st.currentConversationId ≠ some id →
      (handleDeleteConversation true msgDelOk convDelOk st id).messages
          = st.messages ∧
        (handleDeleteConversation true msgDelOk convDelOk st
          id).currentConversationId = st.currentConversationId) ∧
    (msgDelOk = true → convDelOk = true →
      (handleDeleteConversation true msgDelOk convDelOk st id).conversations
        = st.conversations.filter (fun c => c.id != id)) ∧
    ((st.conversations.map (fun c => c.id)).Nodup → msgDelOk = true →
      convDelOk = true →
      (handleDeleteConversation true msgDelOk convDelOk st id).conversations
        = st.conversations.eraseP (fun c => c.id == id)) ∧
    (st.currentConversationId = some id →
      (handleDeleteConversation true msgDelOk convDelOk st id).messages = []
        ∧ (handleDeleteConversation true msgDelOk convDelOk st
          id).currentConversationId = none) := by
  refine ⟨?_, ?_, ?_, ?_⟩
  · intro hne
    by_cases hc : st.currentConversationId = some id
    · exact absurd hc hne
    · cases msgDelOk <;> cases convDelOk <;>
        simp [handleDeleteConversation, hc]
  · rintro rfl rfl
    by_cases hc : st.currentConversationId = some id <;>
      simp [handleDeleteConversation, hc]
  · intro hnd
    rintro rfl rfl
    rw [← filter_ne_eq_eraseP st.conversations id hnd]
    by_cases hc : st.currentConversationId = some id <;>
      simp [handleDeleteConversation, hc]
  · intro hc
    cases msgDelOk <;> cases convDelOk <;>
      simp [handleDeleteConversation, hc]

/-- Witness for claim C10 at a concrete state: conversation `c1` is
selected; the theorem is applied to the deletion of the unselected `c2`
with both database calls succeeding. -/
theorem delete_conversation_frame_witness :
    chatStateW.currentConversationId ≠ some "c2" ∧
      ((handleDeleteConversation true true true chatStateW "c2").messages
          = chatStateW.messages ∧
        (handleDeleteConversation true true true chatStateW
          "c2").currentConversationId = chatStateW.currentConversationId) ∧
      (handleDeleteConversation true true true chatStateW "c2").conversations
        = chatStateW.conversations.filter (fun c => c.id != "c2") :=
  ⟨by decide,
    (delete_conversation_frame chatStateW "c2" true true).1 (by decide),
    (delete_conversation_frame chatStateW "c2" true true).2.1 rfl rfl⟩

theorem findSome?_preserves {α β : Type} (f : α → Option β) (P : β → Prop)
    (hf : ∀ a b, f a = some b → P b) :
    ∀ (l : List α) (b : β), l.findSome? f = some b → P b := by
  intro l
  induction l with
  | nil => intro b h; simp [List.findSome?] at h
  | cons a t ih =>
    intro b h
    rw [List.findSome?_cons] at h
    cases hfa : f a with
    | some c =>
      rw [hfa] at h
      cases h
      exact hf a b hfa
    | none =>
      rw [hfa] at h
      exact ih b h

theorem lineTimesPerDay_pos (lower : String) : 1 ≤ lineTimesPerDay lower := by
  unfold lineTimesPerDay
  cases h : tpScan lower.toList with
  | some n =>
    by_cases hn : n = 0
    · simp [hn]
    · simp only [hn, if_false]
      omega
  | none =>
    by_cases h2 : twiceTest lower
    · simp [h2]
    · by_cases h3 : thriceTest lower
      · simp [h2, h3]
      · simp [h2, h3]

theorem fallbackHere_pos (l : List Char) (m : MedItem)
    (h : fallbackHere l = some m) : 1 ≤ m.timesPerDay := by
  unfold fallbackHere at h
  refine findSome?_preserves _ (fun x => 1 ≤ x.timesPerDay) ?_ _ m h
  intro a b hab
  simp only at hab
  split at hab
  · exact absurd hab (by simp)
  · split at hab
    · exact absurd hab (by simp)
    · split at hab
      · exact absurd hab (by simp)
      · split at hab
        · exact absurd hab (by simp)
        · split at hab
          · cases hab
            simp only
            split <;> omega
          · exact absurd hab (by simp)

theorem fallbackScan_pos (l : List Char) (m : MedItem)
    (h : fallbackScan l = some m) : 1 ≤ m.timesPerDay := by
  induction l with
  | nil => simp [fallbackScan] at h
  | cons c rest ih =>
    rw [fallbackScan] at h
    cases hfb : fallbackHere (c :: rest) with
    | some x =>
      rw [hfb] at h
      cases h
      exact fallbackHere_pos (c :: rest) m hfb
    | none =>
      rw [hfb] at h
      exact ih h

theorem parseLine_meds_pos (st : ParseState) (line : String)
    (ih : ∀ m ∈ st.meds, 1 ≤ m.timesPerDay) :
    ∀ m ∈ (parseLine st line).meds, 1 ≤ m.timesPerDay := by
  intro m hm
  unfold parseLine at hm
  simp only at hm
  by_cases h1 : (st.patientName.isNone && nameLineTest (jsToLower line)) = true
  · rw [if_pos h1] at hm
    exact ih m hm
  · rw [if_neg h1] at hm
    by_cases h2 :
        (st.prescribedDate.isNone && dateLineTest (jsToLower line) line) = true
    · rw [if_pos h2] at hm
      exact ih m hm
    · rw [if_neg h2] at hm
      by_cases h3 : medLineTest line = true
      · rw [if_pos h3] at hm
        simp only [List.mem_append, List.mem_singleton] at hm
        rcases hm with hm | hm
        · exact ih m hm
        · subst hm
          exact lineTimesPerDay_pos _
      · rw [if_neg h3] at hm
        exact ih m hm

theorem foldl_parseLine_meds_pos (lines : List String) :
    ∀ st : ParseState, (∀ m ∈ st.meds, 1 ≤ m.timesPerDay) →
      ∀ m ∈ (lines.foldl parseLine st).meds, 1 ≤ m.timesPerDay := by
  induction lines with
  | nil => intro st h; exact h
  | cons l rest ih =>
    intro st h
    exact ih (parseLine st l) (parseLine_meds_pos st l h)

/-- Claim C9: for every input string, every MedItem in the meds list
returned by simpleParsePrescription has timesPerDay at least 1 — every
frequency-parsing branch falls back to 1 when the parsed number is 0 or
absent. -/
theorem meds_times_per_day_pos (text : String) (m : MedItem)
    (hm : m ∈ (simpleParsePrescription text).meds) : 1 ≤ m.timesPerDay := by
  unfold simpleParsePrescription at hm
  simp only at hm
  split at hm
  · rcases List.mem_filterMap.mp hm with ⟨l, _, hl⟩
    exact fallbackScan_pos l.toList m hl
  · exact foldl_parseLine_meds_pos (prescriptionLines text) _
      (by intro x hx; simp at hx) m hm

/-- Witness for claim C9 at a concrete prescription line whose frequency
number is 0: the parsed medicine falls back to once per day. -/
theorem meds_times_per_day_pos_witness :
    MedItem.mk "Aspirin 100mg 0 times" (some "100mg") 1
        ∈ (simpleParsePrescription "Aspirin 100mg 0 times").meds ∧
      1 ≤ (MedItem.mk "Aspirin 100mg 0 times" (some "100mg") 1).timesPerDay :=
  ⟨by decide, meds_times_per_day_pos "Aspirin 100mg 0 times"
    (MedItem.mk "Aspirin 100mg 0 times" (some "100mg") 1) (by decide)⟩
